import Mathlib

/-!
Shallow embedding of the Editor.js `Paragraph` block tool from
`src/index.js`: the block record, the `data` accessor pair, and the
lifecycle operations `merge`, `validate`, `save`, `onPaste`, `onKeyUp`,
`renderSettings` and the speakable settings toggle.

Modelling conventions:
- A JavaScript object property is an `Option`: `none` is an absent key.
  For the `speakable` property the object spread inside `setSpeakable`
  can distinguish an absent key from a key holding `undefined` (which
  `merge` produces when the current record lacks the flag), so that
  field is `Option (Option Bool)`: `none` means the key is absent,
  `some none` means the key is present holding `undefined`, and
  `some (some b)` means the key is present holding a boolean.  The
  `text` property is only ever read by value, so `Option String`
  suffices for it.
- The editable surface element is modelled by its markup string
  `innerHTML` (plus, for the key-up normalizer, its plain-text content
  `textContent`, which the browser derives from the markup).
- `validate` calls `.trim()` on the text property; when that property
  is `undefined` the call throws a `TypeError`, modelled by
  `Except.error`.
-/

namespace Paragraph

/-- The block record exchanged with the host. -/
structure BlockData where
  text : Option String
  speakable : Option (Option Bool)
deriving Repr, DecidableEq

/-- Value of the property access `r.speakable`: a present key holding
`undefined` and an absent key both read back as `undefined`. -/
def BlockData.speakVal (r : BlockData) : Option Bool := r.speakable.join

/-- Instance state: the backing record `this._data`, the surface markup
`this._element.innerHTML`, and whether the settings button carries the
focused CSS class. -/
structure PState where
  _data : BlockData
  innerHTML : String
  focused : Bool
deriving Repr, DecidableEq

/-- The `data` getter (src/index.js line 262): reads the surface markup
into `_data.text` and returns the record; the mutated instance state is
returned alongside. -/
def getData (s : PState) : BlockData × PState :=
  let d : BlockData := { s._data with text := some s.innerHTML }
  (d, { s with _data := d })

/-- The `data` setter (src/index.js line 278): stores the incoming
record, an absent argument becoming an empty record, then writes
`_data.text || ''` into the surface markup.  For a string `t` the
expression `t || ''` equals `t` when `t` is nonempty and `''` when `t`
is the falsy empty string, so on the optional property it is exactly
`Option.getD ""`. -/
def setData (d : Option BlockData) (s : PState) : PState :=
  let nd := d.getD ⟨none, none⟩
  { s with _data := nd, innerHTML := nd.text.getD "" }

/-- String coercion applied by the JavaScript `+` operator to a
possibly-undefined operand. -/
def jsStr : Option String → String
  | some t => t
  | none => "undefined"

/-- `merge(data)` (src/index.js line 176): builds a record whose `text`
is `this.data.text + data.text` and whose `speakable` key holds the
current `this.data.speakable` value, then assigns it through the `data`
setter. -/
def merge (other : BlockData) (s : PState) : PState :=
  let ds := getData s
  setData (some { text := some (jsStr ds.1.text ++ jsStr other.text),
                  speakable := some ds.1.speakVal }) ds.2

/-- The `_preserveBlank` flag from the constructor (src/index.js line
66): `config.preserveBlank` when it is defined, `false` otherwise. -/
def mkPreserveBlank (cfg : Option Bool) : Bool := cfg.getD false

/-- Whitespace as recognised by the string `trim` method on the
characters appearing in this development. -/
def isJsSpace (c : Char) : Bool := c = ' ' ∨ c = '\t' ∨ c = '\n' ∨ c = '\r'

/-- The JavaScript `String.prototype.trim`: removes leading and trailing
whitespace. -/
def jsTrim (s : String) : String :=
  ⟨((s.data.dropWhile isJsSpace).reverse.dropWhile isJsSpace).reverse⟩

/-- `validate(savedData)` (src/index.js line 193): returns `false` when
`savedData.text.trim()` is the empty string and `_preserveBlank` is
unset, `true` otherwise.  When `savedData.text` is `undefined` the call
`undefined.trim()` throws a `TypeError`. -/
def validate (preserveBlank : Bool) (savedData : BlockData) : Except String Bool :=
  match savedData.text with
  | none => Except.error "TypeError: savedData.text is undefined"
  | some t => Except.ok (if jsTrim t = "" ∧ preserveBlank = false then false else true)

/-- `save(toolsContent)` (src/index.js line 207): a fresh record whose
`text` key holds the surface markup and whose `speakable` key holds the
value read through the `data` getter; the getter side effect on the
instance state is kept. -/
def save (s : PState) : BlockData × PState :=
  let ds := getData s
  ({ text := some s.innerHTML, speakable := some ds.1.speakVal }, ds.2)

/-- `onPaste(event)` (src/index.js line 219): assigns a record holding
only the pasted fragment markup through the `data` setter. -/
def onPaste (pastedHTML : String) (s : PState) : PState :=
  setData (some { text := some pastedHTML, speakable := none }) s

/-- `setSpeakable(value)` (src/index.js line 158): assigns the object
literal that lists `speakable: value` first and then spreads the current
`this.data` over it, so an existing `speakable` key of the current
record (even one holding `undefined`) overrides `value`; afterwards the
focused class on the settings button is set from `value`.  After the
getter runs, the `text` key is always present, so the spread copies
it. -/
def setSpeakable (value : Bool) (s : PState) : PState :=
  let ds := getData s
  let nd : BlockData :=
    { text := ds.1.text,
      speakable := match ds.1.speakable with
        | some v => some v
        | none => some (some value) }
  { setData (some nd) ds.2 with focused := value }

/-- The property access `this.speakable` performed by the settings click
handler (src/index.js line 142): the `Paragraph` instance never defines
a `speakable` property, so the access yields `undefined`. -/
def thisSpeakable : Option Bool := none

/-- The settings-button click handler (src/index.js line 141):
`this.setSpeakable(!this.speakable)`, the operand of `!` read under
JavaScript truthiness. -/
def clickSpeakable (s : PState) : PState :=
  setSpeakable (! thisSpeakable.getD false) s

/-- `renderSettings()` (src/index.js line 119): the button is given the
focused class exactly when `this.data.speakable` is truthy; the `data`
getter side effect is kept. -/
def renderSettings (s : PState) : PState :=
  let ds := getData s
  { ds.2 with focused := ds.1.speakVal.getD false }

/-- Construction (src/index.js line 46): `this._data` starts as an empty
record, the surface starts empty, and `this.data = data` runs the `data`
setter on the possibly-absent saved record. -/
def construct (data : Option BlockData) : PState :=
  setData data { _data := ⟨none, none⟩, innerHTML := "", focused := false }

/-- The editable surface as seen by the key-up normalizer: markup and
plain-text content. -/
structure Surface where
  innerHTML : String
  textContent : String
deriving Repr, DecidableEq

/-- `onKeyUp(e)` (src/index.js line 78): returns immediately unless the
key code is Backspace or Delete; on those keys, when the plain-text
content is empty the markup is forced to the empty string (an element
with empty markup has no children, hence empty text content). -/
def onKeyUp (code : String) (el : Surface) : Surface :=
  if code ≠ "Backspace" ∧ code ≠ "Delete" then el
  else if el.textContent = "" then ⟨"", ""⟩
  else el

/-- The surface markup and the backing-record text agree, an absent
`text` property standing for the empty string, which is exactly what
the `data` setter writes to the surface for it. -/
def textConsistent (s : PState) : Prop := s._data.text.getD "" = s.innerHTML

/-- C1: setting a record R and then reading through the `data` getter
returns a record whose text equals R.text, or the empty string when
R.text is absent, and whose speakable equals R.speakable; setting an
absent record behaves as setting an empty record. -/
theorem c1_set_get_roundtrip (R : BlockData) (s : PState) :
    ((getData (setData (some R) s)).1.text = some (R.text.getD "")
        ∧ (getData (setData (some R) s)).1.speakable = R.speakable)
      ∧ setData none s = setData (some ⟨none, none⟩) s :=
  ⟨⟨rfl, rfl⟩, rfl⟩

/-- C2: evaluating the click handler on a block whose record carries
speakable true: the code keeps speakable true and marks the button
active, rather than storing the negation false, because
`this.speakable` is undefined (so the handler always passes true) and
the spread in `setSpeakable` lets the old record win. -/
theorem c2_click_keeps_speakable_true :
    (renderSettings (construct (some ⟨some "a", some (some true)⟩)))._data.speakVal
        = some true
      ∧ (clickSpeakable (renderSettings
            (construct (some ⟨some "a", some (some true)⟩))))._data.speakVal
        = some true
      ∧ (clickSpeakable (renderSettings
            (construct (some ⟨some "a", some (some true)⟩)))).focused = true :=
  ⟨rfl, rfl, rfl⟩

/-- C3: evaluating two clicks of the speakable toggle starting from a
record without the speakable flag: the stored value ends at true rather
than returning to its original absent/false value. -/
theorem c3_double_toggle_ends_true :
    (renderSettings (construct (some ⟨some "a", none⟩)))._data.speakVal = none
      ∧ (clickSpeakable (clickSpeakable (renderSettings
            (construct (some ⟨some "a", none⟩)))))._data.speakVal = some true :=
  ⟨rfl, rfl⟩

/-- C4: merging a record whose text is u concatenates the current
surface text with u, with no separator, and keeps the current speakable
value; in particular merging text "World" into a block holding
"Hello " gives "Hello World" with speakable unchanged. -/
theorem c4_merge_concat (s : PState) (u : String) (spD : Option (Option Bool)) :
    (merge ⟨some u, spD⟩ s)._data.text = some (s.innerHTML ++ u)
      ∧ (merge ⟨some u, spD⟩ s)._data.speakVal = s._data.speakVal
      ∧ (merge ⟨some "World", none⟩
            ⟨⟨some "Hello ", some (some true)⟩, "Hello ", false⟩)._data
          = ⟨some "Hello World", some (some true)⟩ :=
  ⟨rfl, rfl, by decide⟩

/-- C5: on a record with a string text field, validate returns false
exactly when the trimmed text is empty and the configured preserveBlank
flag (defaulting to false) is false, and returns true in every other
case; whitespace-only text is invalid under the default configuration
and empty text is valid when preserveBlank is true. -/
theorem c5_validate_characterization (cfg : Option Bool) (t : String)
    (sp : Option (Option Bool)) :
    (validate (mkPreserveBlank cfg) ⟨some t, sp⟩ = Except.ok false
        ↔ jsTrim t = "" ∧ mkPreserveBlank cfg = false)
      ∧ (validate (mkPreserveBlank cfg) ⟨some t, sp⟩ = Except.ok true
        ↔ ¬(jsTrim t = "" ∧ mkPreserveBlank cfg = false))
      ∧ validate (mkPreserveBlank none) ⟨some "   ", some (some false)⟩
          = Except.ok false
      ∧ validate (mkPreserveBlank (some true)) ⟨some "", some (some false)⟩
          = Except.ok true := by
  refine ⟨?_, ?_, rfl, rfl⟩ <;>
    by_cases h : jsTrim t = "" ∧ mkPreserveBlank cfg = false <;>
      simp [validate, h]

/-- C6: onPaste replaces the backing record wholesale with one holding
only the pasted markup, so the `data` getter afterwards returns that
text with an absent speakable, whatever the previous state was. -/
theorem c6_onPaste_resets (s : PState) (html : String) :
    (onPaste html s)._data = ⟨some html, none⟩
      ∧ (getData (onPaste html s)).1.text = some html
      ∧ (getData (onPaste html s)).1.speakVal = none :=
  ⟨rfl, rfl, rfl⟩

/-- C7: the key-up normalizer clears the markup exactly on a Backspace
or Delete key with empty plain-text content and leaves the surface
untouched in every other case; saving a block whose surface markup is
empty yields a record whose text is the empty string. -/
theorem c7_onKeyUp_normalizes (code : String) (el : Surface) (d : BlockData)
    (f : Bool) :
    onKeyUp code el
        = (if (code = "Backspace" ∨ code = "Delete") ∧ el.textContent = ""
            then ⟨"", ""⟩ else el)
      ∧ (save ⟨d, "", f⟩).1.text = some "" := by
  constructor
  · by_cases hb : code = "Backspace" <;> by_cases hd : code = "Delete" <;>
      by_cases ht : el.textContent = "" <;> simp [onKeyUp, hb, hd, ht]
  · rfl

/-- C8 counterexample: validate applied to a record whose text field is
absent evaluates `undefined.trim()` and throws, so validate is not
exception-free on every input record. -/
theorem c8_validate_throws_on_absent_text :
    validate (mkPreserveBlank none) ⟨none, some (some false)⟩
      = Except.error "TypeError: savedData.text is undefined" := rfl

/-- C8 amended: on every record with a string text field validate
returns a boolean and never throws, returning false being its only
failure signal; on a record whose text field is absent it throws a
TypeError. -/
theorem c8_validate_total_on_string_text (pb : Bool) (t : String)
    (sp spAbsent : Option (Option Bool)) :
    (∃ b : Bool, validate pb ⟨some t, sp⟩ = Except.ok b)
      ∧ validate pb ⟨none, spAbsent⟩
          = Except.error "TypeError: savedData.text is undefined" :=
  ⟨⟨if jsTrim t = "" ∧ pb = false then false else true, rfl⟩, rfl⟩

/-- C9: every lifecycle operation returns with the surface markup and
the backing-record text consistent, an absent text field standing for
the empty string that the setter writes for it. -/
theorem c9_text_consistency (s : PState) (R : Option BlockData)
    (D : BlockData) (html : String) (v : Bool) :
    textConsistent (setData R s)
      ∧ textConsistent (getData s).2
      ∧ textConsistent (merge D s)
      ∧ textConsistent (onPaste html s)
      ∧ textConsistent (setSpeakable v s)
      ∧ textConsistent (clickSpeakable s)
      ∧ textConsistent (save s).2 :=
  ⟨rfl, rfl, rfl, rfl, rfl, rfl, rfl⟩

/-- C10: the `data` getter leaves the surface markup and the button
state untouched; its only side effect is overwriting the backing
record's text field with the current surface markup, and the record it
returns is exactly that updated record. -/
theorem c10_get_frame (s : PState) :
    (getData s).2.innerHTML = s.innerHTML
      ∧ (getData s).2.focused = s.focused
      ∧ (getData s).2._data = { s._data with text := some s.innerHTML }
      ∧ (getData s).1 = (getData s).2._data :=
  ⟨rfl, rfl, rfl, rfl⟩

end Paragraph
